import Mathlib

/-!
Shallow embedding of the two-tier interview-answer analysis pipeline:

* `StaticAnalysisService` (source file: `staticAnalysisService.ts`):
  the Metrics Extractor (`analyzeAudioMetrics`), the Heuristic Scorer
  (`generateStaticAnalysis`), the legacy transcript-only entry point
  (`analyzeAnswer`) and the quick-feedback helper (`generateQuickFeedback`).
* `GeminiAnalysisService` (source file: `geminiAnalysisService.ts`):
  the Remote Analysis Client (`analyzeAnswer`) and the Orchestrator
  (`processAudioResponse`).

Modelling conventions:

* JS numbers are modelled as rationals (`ℚ`); byte sizes and counts as `Nat`.
* JS strings are modelled as Lean `String`s; the JS string primitives used by
  the code (`trim`, `split(/\s+/)`, `substring(0, n)`) are re-implemented over
  `List Char` so that every definition reduces inside the kernel.
* The network is abstracted: `GeminiAnalysisService.analyzeAnswer` takes the
  HTTP response it would observe (`HttpResponse`), the behaviour of
  `JSON.parse` on report-shaped text (`parseJson`, an oracle returning `none`
  exactly when `JSON.parse` would throw), and the measured elapsed wall-clock
  time, as explicit parameters.  A thrown JS exception is modelled as
  `Except.error`.
-/

/-- The backquote character, written via its code point. -/
def backquote : Char := Char.ofNat 96

/-- The line-feed character. -/
def lineFeed : Char := Char.ofNat 10

/-- Splitting a character list at every separator character, keeping the
(possibly empty) chunks between separators.  This mirrors Lean's
`String.split`; JS `split(/\s+/)` splits at maximal whitespace runs instead,
but after the source's `.filter(w => w.length > 0)` both produce exactly the
maximal non-separator runs, so the filtered token lists agree. -/
def splitChars (p : Char → Bool) : List Char → List (List Char)
  | [] => [[]]
  | c :: cs =>
    if p c then [] :: splitChars p cs
    else
      match splitChars p cs with
      | [] => [[c]]
      | t :: ts => (c :: t) :: ts

/-- `transcript.split(/\s+/).filter(w => w.length > 0).length` from the
source: the number of whitespace-delimited non-empty tokens. -/
def countWords (s : String) : Nat :=
  ((splitChars Char.isWhitespace s.data).filter (fun w => w.length > 0)).length

/-- JS `String.prototype.trim` over the character list: drop whitespace from
both ends. -/
def trimChars (cs : List Char) : List Char :=
  ((cs.dropWhile Char.isWhitespace).reverse.dropWhile Char.isWhitespace).reverse

/-- JS `s.trim()`. -/
def jsTrim (s : String) : String := String.mk (trimChars s.data)

/-- JS `s.substring(0, n)`: the first `n` characters of `s`. -/
def jsTake (s : String) (n : Nat) : String := String.mk (s.data.take n)

/-! ## Data model -/

/-- A captured audio blob; the analysis code only ever reads its byte size. -/
structure Blob where
  size : Nat
deriving Repr, DecidableEq

/-- Raw audio level statistics (`{ maxRms, sumRms, frames }`). -/
structure AudioLevelData where
  maxRms : ℚ
  sumRms : ℚ
  frames : Nat
deriving Repr, DecidableEq

/-- `AudioMetrics` from `staticAnalysisService.ts`. -/
structure AudioMetrics where
  duration : ℚ
  hasVoice : Bool
  transcript : String
  wordCount : Nat
  avgRms : ℚ
  maxRms : ℚ
deriving Repr, DecidableEq

/-- The feedback block of an `AnswerAnalysis`. -/
structure Feedback where
  strengths : List String
  weaknesses : List String
  suggestions : List String
  detailedFeedback : String
deriving Repr, DecidableEq

/-- The five named sub-scores of an `AnswerAnalysis`. -/
structure Scores where
  clarity : ℚ
  relevance : ℚ
  «structure» : ℚ
  completeness : ℚ
  confidence : ℚ
deriving Repr, DecidableEq

/-- Covered / missed key points. -/
structure KeyPoints where
  covered : List String
  missed : List String
deriving Repr, DecidableEq

/-- The time-management block of an `AnswerAnalysis`.  The source types
`efficiency` as a union of four string literals; it is modelled as `String`. -/
structure TimeManagement where
  duration : ℚ
  efficiency : String
  pacing : String
deriving Repr, DecidableEq

/-- `AnswerAnalysis` from `geminiAnalysisService.ts`: the Feedback Report,
the sole output type of the core. -/
structure AnswerAnalysis where
  overallScore : ℚ
  transcript : String
  feedback : Feedback
  scores : Scores
  keyPoints : KeyPoints
  timeManagement : TimeManagement
  processingTime : ℚ
deriving Repr, DecidableEq

/-- `InterviewQuestion` from `geminiAnalysisService.ts`.  The union-typed
fields are modelled as `String`; the question only feeds the prompt text. -/
structure InterviewQuestion where
  id : String
  question : String
  type : String
  difficulty : String
  skills : List String
  expectedDuration : ℚ
  category : String
deriving Repr, DecidableEq

/-- `AnalysisRequest` from `geminiAnalysisService.ts`. -/
structure AnalysisRequest where
  transcript : String
  question : InterviewQuestion
  audioDuration : ℚ
  transcriptionConfidence : ℚ
  audioBlob : Option Blob
  audioLevelData : Option AudioLevelData
deriving Repr, DecidableEq

namespace StaticAnalysisService

/-- `StaticAnalysisService.analyzeAudioMetrics`: derives `AudioMetrics` from
the blob size, duration, transcript and level statistics. -/
def analyzeAudioMetrics (audioBlob : Blob) (duration : ℚ) (transcript : String)
    (audioLevelData : AudioLevelData) : AudioMetrics :=
  let wordCount := countWords transcript
  let avgRms : ℚ :=
    if audioLevelData.frames > 0 then audioLevelData.sumRms / audioLevelData.frames else 0
  let maxRms := audioLevelData.maxRms
  let bytesPerSecond : ℚ := if duration > 0 then (audioBlob.size : ℚ) / duration else 0
  let hasAudioSignal : Bool :=
    decide (duration > 0) && decide (audioBlob.size ≥ 2000) && decide (bytesPerSecond ≥ 300)
      && (decide (maxRms ≥ 0.015) || decide (avgRms ≥ 0.008))
  let hasVoice := hasAudioSignal || decide (wordCount > 0)
  { duration := duration
    hasVoice := hasVoice
    transcript := transcript
    wordCount := wordCount
    avgRms := avgRms
    maxRms := maxRms }

/-- `StaticAnalysisService.generateStaticAnalysis`: the Heuristic Scorer,
a total rule-based fallback.  `transcript || ...` uses JS truthiness, i.e.
the placeholder is chosen exactly when the transcript is the empty string. -/
def generateStaticAnalysis (metrics : AudioMetrics) : AnswerAnalysis :=
  let isShort : Bool := decide (metrics.duration < 10)
  let score : ℚ := if !metrics.hasVoice then 0 else (if isShort then 20 else 50)
  { overallScore := score
    transcript :=
      if metrics.transcript = "" then
        (if metrics.hasVoice then "[Voice detected but transcript unavailable]"
         else "[No voice detected]")
      else metrics.transcript
    feedback :=
      { strengths := if metrics.hasVoice then ["Audio captured successfully"] else []
        weaknesses :=
          if !metrics.hasVoice then ["No voice detected"]
          else (if isShort then ["Response is very short"]
                else ["AI analysis temporarily unavailable"])
        suggestions :=
          if !metrics.hasVoice then ["Check microphone settings"]
          else ["Try recording a longer, more detailed response"]
        detailedFeedback :=
          if !metrics.hasVoice then
            "We could not detect any voice in your recording. Please ensure your microphone is working and speak clearly."
          else
            "Your response has been captured. For a full AI-powered analysis with strengths and weaknesses, please ensure you have a stable connection and provide a detailed answer." }
    scores :=
      { clarity := if metrics.hasVoice then 60 else 0
        relevance := if metrics.hasVoice then 50 else 0
        «structure» := if metrics.hasVoice then 40 else 0
        completeness := if metrics.hasVoice then 30 else 0
        confidence := if metrics.hasVoice then 50 else 0 }
    keyPoints := { covered := [], missed := [] }
    timeManagement :=
      { duration := metrics.duration
        efficiency := if metrics.duration > 45 then "good" else "average"
        pacing := if metrics.hasVoice then "Pacing detected" else "N/A" }
    processingTime := 100 }

/-- `StaticAnalysisService.analyzeAnswer` (the legacy transcript-only entry
point); the wrapping `Promise.resolve` is dropped since the body is pure. -/
def analyzeAnswer (request : AnalysisRequest) : AnswerAnalysis :=
  let wordCount := countWords request.transcript
  generateStaticAnalysis
    { duration := request.audioDuration
      hasVoice := decide (wordCount > 0)
      transcript := request.transcript
      wordCount := wordCount
      avgRms := 0
      maxRms := 0 }

/-- `StaticAnalysisService.getQuickTips`. -/
def getQuickTips (wordCount : Nat) (duration : ℚ) : List String :=
  (if duration > 0 ∧ duration < 30 then ["Aim for a longer response"] else []) ++
    (if wordCount > 0 ∧ wordCount < 50 then ["Add more specific examples"] else [])

/-- The anonymous record returned by `generateQuickFeedback`. -/
structure QuickFeedback where
  wordCount : Nat
  duration : ℚ
  wordsPerMinute : ℤ
  estimatedScore : ℤ
  quickTips : List String
deriving Repr, DecidableEq

/-- `StaticAnalysisService.generateQuickFeedback`.  `Math.round x` is
`⌊x + 1/2⌋`, Mathlib's `round`. -/
def generateQuickFeedback (transcript : String) (duration : ℚ) : QuickFeedback :=
  let wordCount := countWords transcript
  let wordsPerMinute : ℤ :=
    if duration > 0 then round ((wordCount : ℚ) / duration * 60) else 0
  { wordCount := wordCount
    duration := duration
    wordsPerMinute := wordsPerMinute
    estimatedScore := min (max (round ((wordCount : ℚ) / 100 * 80 + 20)) 20) 95
    quickTips := getQuickTips wordCount duration }

end StaticAnalysisService

/-! ## Remote Analysis Client -/

/-- The time-management block of the parsed remote JSON.  The prompt asks the
model to omit `duration`, but a restated value may still be present; it is
modelled explicitly because the client overrides it. -/
structure ParsedTimeManagement where
  duration : ℚ
  efficiency : String
  pacing : String
deriving Repr, DecidableEq

/-- A successfully parsed remote JSON report: everything `JSON.parse` yields
that the client spreads into the result.  `transcript` models a restated
transcript the remote model may emit; the client overrides it. -/
structure ParsedAnalysis where
  overallScore : ℚ
  transcript : String
  feedback : Feedback
  scores : Scores
  keyPoints : KeyPoints
  timeManagement : ParsedTimeManagement
deriving Repr, DecidableEq

/-- The fields of the JSON response body that the client probes:
`candidatesText` is `data.candidates[0]?.content?.parts?.[0]?.text` when that
optional chain produces a string, `text` is `data.text`, `response` is
`data.response`. -/
structure GeminiResponseData where
  candidatesText : Option String
  text : Option String
  response : Option String
deriving Repr, DecidableEq

/-- The observable part of the HTTP response: `ok`, `status`, the error body
`text()` and the parsed JSON body. -/
structure HttpResponse where
  ok : Bool
  status : Nat
  bodyText : String
  data : GeminiResponseData
deriving Repr, DecidableEq

/-- The errors `GeminiAnalysisService.analyzeAnswer` can throw:
the non-ok-status error carrying the truncated body, the
`No analysis results received from Gemini` error, and a `JSON.parse`
exception. -/
inductive AnalyzeError where
  | apiError (status : Nat) (body : String)
  | noResults
  | parseFailure
deriving Repr, DecidableEq

/-- First truthy string among candidates; a present-but-empty string is falsy
in JS, so it is skipped, exactly like the source's cascaded `if`s. -/
def firstTruthy : List (Option String) → Option String
  | [] => none
  | some t :: rest => if t = "" then firstTruthy rest else some t
  | none :: rest => firstTruthy rest

/-- The source's response-shape cascade: direct-API candidates shape, then
relay `text` shape, then relay `response` shape. -/
def extractText (d : GeminiResponseData) : Option String :=
  firstTruthy [d.candidatesText, d.text, d.response]

/-- The three-backquote fence marker. -/
def fenceChars : List Char := [backquote, backquote, backquote]

/-- The marker of a JSON code fence (three backquotes then `json`). -/
def fenceJsonChars : List Char := fenceChars ++ ['j', 's', 'o', 'n']

/-- JS `replace(/^<marker>\n?/, '')`: remove a leading marker together with
one optional following newline. -/
def dropFenceOpen (marker : List Char) (cs : List Char) : List Char :=
  if (marker ++ [lineFeed]).isPrefixOf cs then cs.drop (marker.length + 1)
  else if marker.isPrefixOf cs then cs.drop marker.length
  else cs

/-- JS `replace(/\n?```$/, '')`: remove a trailing fence together with one
optional preceding newline. -/
def dropFenceClose (cs : List Char) : List Char :=
  if (lineFeed :: fenceChars).isSuffixOf cs then cs.take (cs.length - 4)
  else if fenceChars.isSuffixOf cs then cs.take (cs.length - 3)
  else cs

/-- The code-fence stripping conditional of `analyzeAnswer`: if the text
starts with a JSON fence marker strip that marker and the closing fence,
else if it starts with a bare fence marker strip those, else leave it. -/
def stripFenceChars (cs : List Char) : List Char :=
  if fenceJsonChars.isPrefixOf cs then dropFenceClose (dropFenceOpen fenceJsonChars cs)
  else if fenceChars.isPrefixOf cs then dropFenceClose (dropFenceOpen fenceChars cs)
  else cs

/-- Code-fence stripping on strings. -/
def stripCodeFence (s : String) : String := String.mk (stripFenceChars s.data)

/-- The opening of a JSON code fence (three backquotes, `json`, newline),
as a string. -/
def fenceJsonOpen : String := String.mk (fenceJsonChars ++ [lineFeed])

/-- The closing of a code fence (newline then three backquotes), as a
string. -/
def fenceClose : String := String.mk (lineFeed :: fenceChars)

namespace GeminiAnalysisService

/-- `GeminiAnalysisService.analyzeAnswer`, the Remote Analysis Client.
The prompt construction and the choice between the direct API URL and the
proxy URL only determine where the request goes; both paths observe the same
`resp`.  `parseJson` is the `JSON.parse` oracle and `elapsed` the measured
`Date.now() - startTime`.  The `catch`-and-rethrow in the source preserves
the error, so it is not modelled separately. -/
def analyzeAnswer (request : AnalysisRequest) (resp : HttpResponse)
    (parseJson : String → Option ParsedAnalysis) (elapsed : ℚ) :
    Except AnalyzeError AnswerAnalysis :=
  if !resp.ok then
    .error (.apiError resp.status (jsTake resp.bodyText 100))
  else
    match extractText resp.data with
    | none => .error .noResults
    | some analysisText =>
      let cleanedText := stripCodeFence (jsTrim analysisText)
      match parseJson cleanedText with
      | none => .error .parseFailure
      | some analysisResult =>
        .ok
          { overallScore := analysisResult.overallScore
            transcript := request.transcript
            feedback := analysisResult.feedback
            scores := analysisResult.scores
            keyPoints := analysisResult.keyPoints
            timeManagement :=
              { duration := request.audioDuration
                efficiency := analysisResult.timeManagement.efficiency
                pacing := analysisResult.timeManagement.pacing }
            processingTime := elapsed }

/-- `GeminiAnalysisService.processAudioResponse`, the Orchestrator.  The
`try`/`catch` around the remote attempt is modelled by matching on the
`Except` result; `await`s disappear in the pure model. -/
def processAudioResponse (request : AnalysisRequest) (resp : HttpResponse)
    (parseJson : String → Option ParsedAnalysis) (elapsed : ℚ) : AnswerAnalysis :=
  let audioMetrics : Option AudioMetrics :=
    match request.audioBlob, request.audioLevelData with
    | some blob, some lvl =>
      some (StaticAnalysisService.analyzeAudioMetrics blob request.audioDuration
        request.transcript lvl)
    | _, _ => none
  let remoteResult : Option AnswerAnalysis :=
    if (jsTrim request.transcript).length > 0 then
      match analyzeAnswer request resp parseJson elapsed with
      | .ok a => some a
      | .error _ => none
    else none
  match remoteResult with
  | some a => a
  | none =>
    match audioMetrics with
    | some m => StaticAnalysisService.generateStaticAnalysis m
    | none => StaticAnalysisService.analyzeAnswer request

end GeminiAnalysisService

/-! ## Concrete inputs used by the witness theorems -/

/-- A concrete interview question. -/
def questionW : InterviewQuestion :=
  { id := "q1", question := "Tell me about a challenge you faced", type := "behavioral"
    difficulty := "easy", skills := ["communication"], expectedDuration := 60
    category := "general" }

/-- A concrete request with a non-empty transcript and no raw audio data. -/
def requestW : AnalysisRequest :=
  { transcript := "hello world", question := questionW, audioDuration := 12
    transcriptionConfidence := 9/10, audioBlob := none, audioLevelData := none }

/-- A concrete request with an empty transcript and no raw audio data. -/
def requestEmptyW : AnalysisRequest :=
  { transcript := "", question := questionW, audioDuration := 5
    transcriptionConfidence := 0, audioBlob := none, audioLevelData := none }

/-- A failed HTTP response (status 500). -/
def respFailW : HttpResponse :=
  { ok := false, status := 500, bodyText := "Internal Server Error"
    data := { candidatesText := none, text := none, response := none } }

/-- A successful HTTP response whose JSON matches none of the three shapes
(the relay `text` field is present but empty, hence falsy). -/
def respNoShapeW : HttpResponse :=
  { ok := true, status := 200, bodyText := ""
    data := { candidatesText := none, text := some "", response := none } }

/-- A successful HTTP response carrying generated text in the direct-API
candidates shape. -/
def respOkW : HttpResponse :=
  { ok := true, status := 200, bodyText := ""
    data := { candidatesText := some "payload", text := none, response := none } }

/-- A concrete feedback block. -/
def feedbackW : Feedback :=
  { strengths := ["clear examples"], weaknesses := ["too brief"]
    suggestions := ["add detail"], detailedFeedback := "Solid answer." }

/-- Concrete sub-scores. -/
def scoresW : Scores :=
  { clarity := 80, relevance := 70, «structure» := 60, completeness := 50, confidence := 40 }

/-- Concrete key points. -/
def keyPointsW : KeyPoints := { covered := ["teamwork"], missed := ["metrics"] }

/-- A concrete parsed remote report, with a restated transcript and duration
that the client must discard. -/
def parsedW : ParsedAnalysis :=
  { overallScore := 85, transcript := "restated by the model", feedback := feedbackW
    scores := scoresW, keyPoints := keyPointsW
    timeManagement := { duration := 999, efficiency := "good", pacing := "steady" } }

/-! ## Theorems -/

/-- C2: for every Audio Metrics value the Heuristic Scorer returns
overallScore 0 when voice is absent, 20 when voice is present and the
duration is under 10 seconds, and 50 otherwise; the five sub-scores are the
fixed constants 60/50/40/30/50 when voice is present and all 0 when absent;
hence the overall score is always one of 0, 20, 50 and every sub-score lies
in [0, 100]. -/
theorem generateStaticAnalysis_score_spec (m : AudioMetrics) :
    ((StaticAnalysisService.generateStaticAnalysis m).overallScore
        = if m.hasVoice then (if m.duration < 10 then 20 else 50) else 0)
    ∧ (StaticAnalysisService.generateStaticAnalysis m).scores.clarity
        = (if m.hasVoice then 60 else 0)
    ∧ (StaticAnalysisService.generateStaticAnalysis m).scores.relevance
        = (if m.hasVoice then 50 else 0)
    ∧ (StaticAnalysisService.generateStaticAnalysis m).scores.«structure»
        = (if m.hasVoice then 40 else 0)
    ∧ (StaticAnalysisService.generateStaticAnalysis m).scores.completeness
        = (if m.hasVoice then 30 else 0)
    ∧ (StaticAnalysisService.generateStaticAnalysis m).scores.confidence
        = (if m.hasVoice then 50 else 0)
    ∧ ((StaticAnalysisService.generateStaticAnalysis m).overallScore = 0
        ∨ (StaticAnalysisService.generateStaticAnalysis m).overallScore = 20
        ∨ (StaticAnalysisService.generateStaticAnalysis m).overallScore = 50)
    ∧ (0 ≤ (StaticAnalysisService.generateStaticAnalysis m).scores.clarity
        ∧ (StaticAnalysisService.generateStaticAnalysis m).scores.clarity ≤ 100)
    ∧ (0 ≤ (StaticAnalysisService.generateStaticAnalysis m).scores.relevance
        ∧ (StaticAnalysisService.generateStaticAnalysis m).scores.relevance ≤ 100)
    ∧ (0 ≤ (StaticAnalysisService.generateStaticAnalysis m).scores.«structure»
        ∧ (StaticAnalysisService.generateStaticAnalysis m).scores.«structure» ≤ 100)
    ∧ (0 ≤ (StaticAnalysisService.generateStaticAnalysis m).scores.completeness
        ∧ (StaticAnalysisService.generateStaticAnalysis m).scores.completeness ≤ 100)
    ∧ (0 ≤ (StaticAnalysisService.generateStaticAnalysis m).scores.confidence
        ∧ (StaticAnalysisService.generateStaticAnalysis m).scores.confidence ≤ 100) := by
  cases hv : m.hasVoice <;>
    simp [StaticAnalysisService.generateStaticAnalysis, hv] <;>
    by_cases hd : m.duration < 10 <;>
    simp [hd] <;> first | exact ⟨not_lt.1 hd, by norm_num⟩ | norm_num

/-- C3: whenever the transcript contains at least one whitespace-delimited
non-empty token, the Metrics Extractor reports voice presence, regardless of
blob size, duration, or signal levels. -/
theorem analyzeAudioMetrics_hasVoice_of_wordCount (b : Blob) (d : ℚ) (t : String)
    (lvl : AudioLevelData) (h : countWords t > 0) :
    (StaticAnalysisService.analyzeAudioMetrics b d t lvl).hasVoice = true := by
  simp [StaticAnalysisService.analyzeAudioMetrics, h]

/-- C3 witness: a tiny silent blob with the transcript `hello` still counts
as voiced. -/
theorem analyzeAudioMetrics_hasVoice_of_wordCount_witness :
    countWords "hello" > 0
    ∧ (StaticAnalysisService.analyzeAudioMetrics ⟨1⟩ 0 "hello" ⟨0, 0, 0⟩).hasVoice = true :=
  ⟨by decide, analyzeAudioMetrics_hasVoice_of_wordCount ⟨1⟩ 0 "hello" ⟨0, 0, 0⟩ (by decide)⟩

/-- C4: with no transcript token and a blob under 2000 bytes, the Metrics
Extractor reports no voice. -/
theorem analyzeAudioMetrics_noVoice_of_small (b : Blob) (d : ℚ) (t : String)
    (lvl : AudioLevelData) (h0 : countWords t = 0) (hsize : b.size < 2000) :
    (StaticAnalysisService.analyzeAudioMetrics b d t lvl).hasVoice = false := by
  have hns : ¬ (b.size ≥ 2000) := by omega
  simp [StaticAnalysisService.analyzeAudioMetrics, h0, hns]

/-- C4 witness: the claim's particular scenario — duration 5 s, empty
transcript, 500-byte blob (with nonzero levels) — yields no voice. -/
theorem analyzeAudioMetrics_noVoice_of_small_witness :
    countWords "" = 0 ∧ (500 : Nat) < 2000
    ∧ (StaticAnalysisService.analyzeAudioMetrics ⟨500⟩ 5 "" ⟨1, 1, 1⟩).hasVoice = false :=
  ⟨by decide, by decide,
    analyzeAudioMetrics_noVoice_of_small ⟨500⟩ 5 "" ⟨1, 1, 1⟩ (by decide) (by decide)⟩

/-- C10: for every transcript and duration, `generateQuickFeedback` returns
an estimated score in [20, 95], and a words-per-minute of 0 whenever the
duration is not positive (the division is guarded). -/
theorem generateQuickFeedback_bounds (t : String) (d : ℚ) :
    20 ≤ (StaticAnalysisService.generateQuickFeedback t d).estimatedScore
    ∧ (StaticAnalysisService.generateQuickFeedback t d).estimatedScore ≤ 95
    ∧ (d ≤ 0 → (StaticAnalysisService.generateQuickFeedback t d).wordsPerMinute = 0) := by
  refine ⟨?_, ?_, ?_⟩
  · simp only [StaticAnalysisService.generateQuickFeedback]
    exact le_min (le_max_right _ _) (by norm_num)
  · simp only [StaticAnalysisService.generateQuickFeedback]
    exact min_le_right _ _
  · intro hd
    simp only [StaticAnalysisService.generateQuickFeedback]
    rw [if_neg (by exact not_lt.2 hd)]

/-- C10 witness: duration -3 (and also 0 words) gives words-per-minute 0 and
a clamped score. -/
theorem generateQuickFeedback_bounds_witness :
    (-3 : ℚ) ≤ 0
    ∧ (20 ≤ (StaticAnalysisService.generateQuickFeedback "" (-3)).estimatedScore
        ∧ (StaticAnalysisService.generateQuickFeedback "" (-3)).estimatedScore ≤ 95
        ∧ ((-3 : ℚ) ≤ 0 →
          (StaticAnalysisService.generateQuickFeedback "" (-3)).wordsPerMinute = 0)) :=
  ⟨by norm_num, generateQuickFeedback_bounds "" (-3)⟩

/-- The report the Remote Analysis Client produces from `requestW`, `respOkW`
and `parsedW`: the remote scores with the request's transcript and duration
overlaid and the elapsed time stamped. -/
def reportW : AnswerAnalysis :=
  { overallScore := 85, transcript := "hello world", feedback := feedbackW
    scores := scoresW, keyPoints := keyPointsW
    timeManagement := { duration := 12, efficiency := "good", pacing := "steady" }
    processingTime := 7 }

/-- C5: the Remote Analysis Client fails — with the truncated error body on a
non-success status, with a no-results error when none of the three response
shapes matches, and with a parse error when the extracted text does not parse
as JSON; in each case it returns an error, never a report. -/
theorem analyzeAnswer_failure_cases (req : AnalysisRequest) (resp : HttpResponse)
    (parseJson : String → Option ParsedAnalysis) (elapsed : ℚ) :
    (resp.ok = false →
      GeminiAnalysisService.analyzeAnswer req resp parseJson elapsed
        = .error (.apiError resp.status (jsTake resp.bodyText 100)))
    ∧ (resp.ok = true → extractText resp.data = none →
      GeminiAnalysisService.analyzeAnswer req resp parseJson elapsed = .error .noResults)
    ∧ (∀ t, resp.ok = true → extractText resp.data = some t →
      parseJson (stripCodeFence (jsTrim t)) = none →
      GeminiAnalysisService.analyzeAnswer req resp parseJson elapsed = .error .parseFailure) := by
  refine ⟨fun hok => ?_, fun hok hext => ?_, fun t hok hext hp => ?_⟩
  · simp [GeminiAnalysisService.analyzeAnswer, hok]
  · simp [GeminiAnalysisService.analyzeAnswer, hok, hext]
  · simp [GeminiAnalysisService.analyzeAnswer, hok, hext, hp]

/-- C5 witness: a 500 response, a shapeless 200 response (its `text` field
present but empty, hence falsy) and a well-shaped response whose text does
not parse, each produce the corresponding error. -/
theorem analyzeAnswer_failure_cases_witness :
    GeminiAnalysisService.analyzeAnswer requestW respFailW (fun _ => none) 3
        = .error (.apiError 500 (jsTake "Internal Server Error" 100))
    ∧ GeminiAnalysisService.analyzeAnswer requestW respNoShapeW (fun _ => none) 3
        = .error .noResults
    ∧ GeminiAnalysisService.analyzeAnswer requestW respOkW (fun _ => none) 3
        = .error .parseFailure :=
  ⟨(analyzeAnswer_failure_cases requestW respFailW (fun _ => none) 3).1 rfl,
   (analyzeAnswer_failure_cases requestW respNoShapeW (fun _ => none) 3).2.1 rfl (by decide),
   (analyzeAnswer_failure_cases requestW respOkW (fun _ => none) 3).2.2 "payload" rfl
     (by decide) rfl⟩

/-- C6: on success the Remote Analysis Client returns the parsed remote
report with the request's transcript, the request's measured duration inside
the time-management block, and the measured elapsed time as processingTime;
all other fields are taken unchanged from the parsed JSON. -/
theorem analyzeAnswer_success_overlay (req : AnalysisRequest) (resp : HttpResponse)
    (parseJson : String → Option ParsedAnalysis) (elapsed : ℚ) (t : String)
    (r : ParsedAnalysis) (hok : resp.ok = true) (hext : extractText resp.data = some t)
    (hp : parseJson (stripCodeFence (jsTrim t)) = some r) :
    GeminiAnalysisService.analyzeAnswer req resp parseJson elapsed =
      Except.ok
        { overallScore := r.overallScore
          transcript := req.transcript
          feedback := r.feedback
          scores := r.scores
          keyPoints := r.keyPoints
          timeManagement :=
            { duration := req.audioDuration
              efficiency := r.timeManagement.efficiency
              pacing := r.timeManagement.pacing }
          processingTime := elapsed } := by
  simp [GeminiAnalysisService.analyzeAnswer, hok, hext, hp]

/-- C6 witness: the parsed remote report `parsedW` restates transcript and
duration, and both restatements are discarded in favour of the request's. -/
theorem analyzeAnswer_success_overlay_witness :
    GeminiAnalysisService.analyzeAnswer requestW respOkW (fun _ => some parsedW) 7
      = Except.ok reportW := by
  exact analyzeAnswer_success_overlay requestW respOkW (fun _ => some parsedW) 7 "payload"
    parsedW rfl (by decide) rfl

/-- C7: when the transcript is non-empty (after trimming) and the Remote
Analysis Client succeeds, the Orchestrator returns the remote report as-is;
the Heuristic Scorer does not contribute to the result. -/
theorem processAudioResponse_remote_first (req : AnalysisRequest) (resp : HttpResponse)
    (parseJson : String → Option ParsedAnalysis) (elapsed : ℚ) (a : AnswerAnalysis)
    (ht : (jsTrim req.transcript).length > 0)
    (hok : GeminiAnalysisService.analyzeAnswer req resp parseJson elapsed = .ok a) :
    GeminiAnalysisService.processAudioResponse req resp parseJson elapsed = a := by
  simp [GeminiAnalysisService.processAudioResponse, ht, hok]

/-- C7 witness: with the non-empty transcript of `requestW` and a successful
remote exchange, the Orchestrator returns exactly the remote report. -/
theorem processAudioResponse_remote_first_witness :
    GeminiAnalysisService.processAudioResponse requestW respOkW (fun _ => some parsedW) 7
      = reportW :=
  processAudioResponse_remote_first requestW respOkW (fun _ => some parsedW) 7 reportW
    (by decide) rfl

/-- C1: the Orchestrator is total: for every request, response behaviour,
JSON-parse behaviour and elapsed time it returns a `AnswerAnalysis` that is
either the Remote Analysis Client's successful result or the Heuristic
Scorer's output on some metrics value — it never propagates an error. -/
theorem processAudioResponse_total (req : AnalysisRequest) (resp : HttpResponse)
    (parseJson : String → Option ParsedAnalysis) (elapsed : ℚ) :
    GeminiAnalysisService.analyzeAnswer req resp parseJson elapsed
        = Except.ok (GeminiAnalysisService.processAudioResponse req resp parseJson elapsed)
      ∨ ∃ m : AudioMetrics,
        GeminiAnalysisService.processAudioResponse req resp parseJson elapsed
          = StaticAnalysisService.generateStaticAnalysis m := by
  rcases hres : GeminiAnalysisService.analyzeAnswer req resp parseJson elapsed with e | a <;>
    by_cases ht : (jsTrim req.transcript).length > 0 <;>
    rcases hb : req.audioBlob with _ | blob <;>
    rcases hl : req.audioLevelData with _ | lvl <;>
    simp [GeminiAnalysisService.processAudioResponse, ht, hres, hb, hl,
      StaticAnalysisService.analyzeAnswer]

/-- C9: whenever the raw audio blob or the level statistics are missing from
the request and the fallback path is taken (blank transcript or failed remote
attempt), the Orchestrator scores transcript-only metrics: voice presence is
word count > 0 and both levels are 0. -/
theorem processAudioResponse_transcript_fallback (req : AnalysisRequest)
    (resp : HttpResponse) (parseJson : String → Option ParsedAnalysis) (elapsed : ℚ)
    (hmissing : req.audioBlob = none ∨ req.audioLevelData = none)
    (hfb : (jsTrim req.transcript).length = 0
      ∨ ∃ e, GeminiAnalysisService.analyzeAnswer req resp parseJson elapsed = .error e) :
    GeminiAnalysisService.processAudioResponse req resp parseJson elapsed
      = StaticAnalysisService.generateStaticAnalysis
          { duration := req.audioDuration
            hasVoice := decide (countWords req.transcript > 0)
            transcript := req.transcript
            wordCount := countWords req.transcript
            avgRms := 0
            maxRms := 0 } := by
  rcases hres : GeminiAnalysisService.analyzeAnswer req resp parseJson elapsed with e | a
  · rcases hmissing with hb | hl <;>
      rcases hb2 : req.audioBlob with _ | blob <;>
      rcases hl2 : req.audioLevelData with _ | lvl <;>
      by_cases ht : (jsTrim req.transcript).length > 0 <;>
      simp_all [GeminiAnalysisService.processAudioResponse,
        StaticAnalysisService.analyzeAnswer]
  · rcases hfb with h0 | ⟨e, he⟩
    · rcases hmissing with hb | hl <;>
        rcases hb2 : req.audioBlob with _ | blob <;>
        rcases hl2 : req.audioLevelData with _ | lvl <;>
        simp_all [GeminiAnalysisService.processAudioResponse,
          StaticAnalysisService.analyzeAnswer]
    · rw [hres] at he
      cases he

/-- C9 witness: an empty-transcript request with no blob and no level data
falls through to the transcript-only heuristic report. -/
theorem processAudioResponse_transcript_fallback_witness :
    GeminiAnalysisService.processAudioResponse requestEmptyW respFailW (fun _ => none) 3
      = StaticAnalysisService.generateStaticAnalysis
          { duration := 5, hasVoice := false, transcript := ""
            wordCount := 0, avgRms := 0, maxRms := 0 } := by
  exact processAudioResponse_transcript_fallback requestEmptyW respFailW (fun _ => none) 3
    (Or.inl rfl) (Or.inl (by decide))

/-- C8: stripping the code-fence markup from a JSON-fenced text recovers the
inner text unchanged, for every inner text that does not itself begin or end
with a fence marker. -/
theorem stripCodeFence_roundTrip (s : String)
    (hpre : fenceChars.isPrefixOf s.data = false)
    (hsuf : fenceChars.isSuffixOf s.data = false) :
    stripCodeFence (fenceJsonOpen ++ s ++ fenceClose) = s := by
  have hdata : (fenceJsonOpen ++ s ++ fenceClose).data
      = (fenceJsonChars ++ [lineFeed]) ++ (s.data ++ (lineFeed :: fenceChars)) := by
    simp [fenceJsonOpen, fenceClose, String.data_append, List.append_assoc]
  have hifj : fenceJsonChars.isPrefixOf
      ((fenceJsonChars ++ [lineFeed]) ++ (s.data ++ (lineFeed :: fenceChars))) = true := by
    rw [List.isPrefixOf_iff_prefix, List.append_assoc]
    exact List.prefix_append _ _
  have hopen : dropFenceOpen fenceJsonChars
      ((fenceJsonChars ++ [lineFeed]) ++ (s.data ++ (lineFeed :: fenceChars)))
      = s.data ++ (lineFeed :: fenceChars) := by
    unfold dropFenceOpen
    rw [if_pos]
    · have hlen : fenceJsonChars.length + 1 = (fenceJsonChars ++ [lineFeed]).length := by decide
      rw [hlen, List.drop_left]
    · rw [List.isPrefixOf_iff_prefix]
      exact List.prefix_append _ _
  have hclose : dropFenceClose (s.data ++ (lineFeed :: fenceChars)) = s.data := by
    unfold dropFenceClose
    rw [if_pos]
    · have hlen2 : (s.data ++ (lineFeed :: fenceChars)).length - 4 = s.data.length := by
        rw [List.length_append, show (lineFeed :: fenceChars).length = 4 from by decide]
        omega
      rw [hlen2]
      have htake : s.data = List.take s.data.length (s.data ++ (lineFeed :: fenceChars)) := by
        rw [List.take_left]
      exact htake.symm
    · rw [List.isSuffixOf_iff_suffix]
      exact List.suffix_append _ _
  unfold stripCodeFence
  rw [hdata]
  unfold stripFenceChars
  rw [if_pos hifj, hopen, hclose]

/-- C8 witness: a concrete fence-free inner text survives the fencing
round-trip. -/
theorem stripCodeFence_roundTrip_witness :
    fenceChars.isPrefixOf ("overallScore: 85").data = false
    ∧ fenceChars.isSuffixOf ("overallScore: 85").data = false
    ∧ stripCodeFence (fenceJsonOpen ++ "overallScore: 85" ++ fenceClose)
        = "overallScore: 85" :=
  ⟨by decide, by decide, stripCodeFence_roundTrip "overallScore: 85" (by decide) (by decide)⟩
